import Mathlib

/-!
Shallow embedding of `src/vulkan_example.cpp` (an offscreen Vulkan example
program).  Machine integers are modelled as `Nat` with explicit truncation
(`% 2 ^ 16`) where the C++ code truncates; Vulkan flag bitmasks are `Nat`
bitmasks with the numeric values of the corresponding `VK_*` constants;
fallible calls are modelled with `Except String`, the error payload being the
`std::runtime_error` message thrown by the code.
-/

namespace Vkx

/-! ### Vulkan constants (numeric values from the Vulkan headers) -/

/-- `VK_DEBUG_REPORT_ERROR_BIT_EXT` (bit 3). -/
def VK_DEBUG_REPORT_ERROR_BIT_EXT : Nat := 8

/-- `VK_QUEUE_GRAPHICS_BIT` (bit 0). -/
def VK_QUEUE_GRAPHICS_BIT : Nat := 1

/-- `VK_QUEUE_TRANSFER_BIT` (bit 2). -/
def VK_QUEUE_TRANSFER_BIT : Nat := 4

/-- `vk::MemoryPropertyFlagBits::eDeviceLocal`. -/
def eDeviceLocal : Nat := 1

/-- `vk::MemoryPropertyFlagBits::eHostVisible`. -/
def eHostVisible : Nat := 2

/-- `vk::MemoryPropertyFlagBits::eHostCoherent`. -/
def eHostCoherent : Nat := 4

/-- `vk::BufferUsageFlagBits::eTransferSrc`. -/
def eBufferTransferSrc : Nat := 1

/-- `vk::BufferUsageFlagBits::eTransferDst`. -/
def eBufferTransferDst : Nat := 2

/-- `vk::BufferUsageFlagBits::eStorageBuffer`. -/
def eStorageBuffer : Nat := 32

/-- `vk::ImageUsageFlagBits::eTransferSrc`. -/
def eImageTransferSrc : Nat := 1

/-- `vk::ImageUsageFlagBits::eColorAttachment`. -/
def eImageColorAttachment : Nat := 16

/-- `vk::ImageUsageFlagBits::eDepthStencilAttachment`. -/
def eImageDepthStencilAttachment : Nat := 32

/-- `vk::Format::eR32G32B32A32Sfloat` = `VK_FORMAT_R32G32B32A32_SFLOAT`. -/
def eR32G32B32A32Sfloat : Nat := 109

/-- `vk::Format::eD32Sfloat` = `VK_FORMAT_D32_SFLOAT`. -/
def eD32Sfloat : Nat := 126

/-- `vk::ShaderStageFlagBits::eVertex`. -/
def eStageVertex : Nat := 1

/-- `vk::ShaderStageFlagBits::eFragment`. -/
def eStageFragment : Nat := 16

/-- `sizeof(glm::vec2)` in bytes. -/
def sizeof_vec2 : Nat := 8

/-- `sizeof(glm::vec3)` in bytes. -/
def sizeof_vec3 : Nat := 12

/-- `sizeof(glm::vec4)` in bytes. -/
def sizeof_vec4 : Nat := 16

/-! ### Data model of the external API objects the code reads -/

/-- `vk::PhysicalDeviceMemoryProperties`: `memoryTypeCount` valid entries;
`memoryTypes i` is `memoryTypes[i].propertyFlags` as a bitmask. -/
structure PhysicalDeviceMemoryProperties where
  memoryTypeCount : Nat
  memoryTypes : Nat → Nat
deriving Inhabited

/-- `vk::MemoryRequirements` as returned by
`getBufferMemoryRequirements` / `getImageMemoryRequirements`:
a byte `size` and a 32-bit `memoryTypeBits` mask. -/
structure MemoryRequirements where
  size : Nat
  memoryTypeBits : Nat
deriving Inhabited

/-- A physical device as the program reads it: its memory properties and the
`queueFlags` bitmask of each of its queue families (in enumeration order). -/
structure PhysicalDevice where
  memoryProperties : PhysicalDeviceMemoryProperties
  queueFamilyProperties : List Nat
deriving Inhabited

/-! ### `vkx::log` (the debug-report callback), lines 49-67 -/

/-- Outcome of one invocation of the `vkx::log` callback: which stream the
message goes to, and the `VkBool32` return value. -/
structure LogResult where
  toStderr : Bool
  returnValue : Bool

/-- `vkx::log` modelled on its `flags` argument.  The stream is chosen by
`flags == VK_DEBUG_REPORT_ERROR_BIT_EXT ? std::cerr : std::cout` (line 59) and
the return value by `flags_ == eError ? VK_TRUE : VK_FALSE` (line 66), where
`flags_` is `flags` cast to the flag-bits type, so both compare the whole
bitmask with the single error bit. -/
def log (flags : Nat) : LogResult :=
  { toStderr := flags == VK_DEBUG_REPORT_ERROR_BIT_EXT
    returnValue := flags == VK_DEBUG_REPORT_ERROR_BIT_EXT }

/-! ### `vkx::find_memory_index`, lines 82-93 -/

/-- The loop condition of `find_memory_index` at index `i`:
`resource_type[i] && (mem_caps.memoryTypes[i].propertyFlags & mem_flags) == mem_flags`
(lines 88-89).  `resource_type` is the numeric value of the `std::bitset<16>`
argument, so `resource_type[i]` is `testBit`. -/
def mem_type_matches (mc : PhysicalDeviceMemoryProperties)
    (resource_type mem_flags i : Nat) : Bool :=
  resource_type.testBit i && (mc.memoryTypes i &&& mem_flags == mem_flags)

/-- First element of `l` satisfying `p`, scanning left to right (the shape of
the `for` loop of `find_memory_index` applied to the list of indices). -/
def find_first_index (p : Nat → Bool) : List Nat → Option Nat
  | [] => none
  | i :: rest => if p i then some i else find_first_index p rest

/-- `vkx::find_memory_index`: scan `i = 0, 1, ..., memoryTypeCount - 1` and
return the first `i` whose memory type matches; otherwise throw
`"could not find an appropriate memory index"` (line 92). -/
def find_memory_index (mc : PhysicalDeviceMemoryProperties)
    (resource_type mem_flags : Nat) : Except String Nat :=
  match find_first_index (mem_type_matches mc resource_type mem_flags)
      (List.range mc.memoryTypeCount) with
  | some i => .ok i
  | none => .error "could not find an appropriate memory index"

/-- The indices `i` at which the loop of `find_memory_index` evaluates
`resource_type[i]`: every index up to and including the returned one, or every
index below `memoryTypeCount` when the scan falls through to the `throw`. -/
def scanned_indices (mc : PhysicalDeviceMemoryProperties)
    (resource_type mem_flags : Nat) : List Nat :=
  match find_memory_index mc resource_type mem_flags with
  | .ok i => List.range (i + 1)
  | .error _ => List.range mc.memoryTypeCount

/-! ### `vkx::allocate`, lines 105-123 -/

/-- The memory-type index chosen by `vkx::allocate`: it passes the 32-bit
`memory_requirements.memoryTypeBits` to the `std::bitset<16>` parameter of
`find_memory_index` (line 111-112), which keeps only the low 16 bits. -/
def allocate (mc : PhysicalDeviceMemoryProperties) (reqs : MemoryRequirements)
    (mem_props : Nat) : Except String Nat :=
  find_memory_index mc (reqs.memoryTypeBits % 2 ^ 16) mem_props

/-! ### The queue-family search in `main`, lines 349-361 -/

/-- The `find_if` predicate of the queue-family search (lines 352-355):
`props.queueFlags & (eGraphics | eTransfer)` converted to `bool`,
i.e. the intersection with the mask is nonzero. -/
def queue_family_pred (queueFlags : Nat) : Bool :=
  queueFlags &&& (VK_QUEUE_GRAPHICS_BIT ||| VK_QUEUE_TRANSFER_BIT) != 0

/-- Index of the first element of `l` satisfying `p`
(`std::find_if` followed by `std::distance`). -/
def find_if_idx (p : Nat → Bool) : List Nat → Option Nat
  | [] => none
  | f :: rest => if p f then some 0 else (find_if_idx p rest).map (· + 1)

/-- The queue-family selection of `main`: first family whose flags intersect
`eGraphics | eTransfer`, else the `runtime_error` of lines 357-359. -/
def find_graphics_transfer_family (queue_families : List Nat) :
    Except String Nat :=
  match find_if_idx queue_family_pred queue_families with
  | some i => .ok i
  | none =>
    .error "could not find queue that supports both graphics and transfers"

/-! ### The observable actions of `main`, lines 273-897

`main` is a single straight-line script.  We record each external call it
makes (Vulkan API, shaderc, the final file write) as an `Event` carrying the
arguments that the claims are about, in the order the code performs them. -/

inductive Event where
  | createInstance (layerCount extCount : Nat)
  | createDebugReportCallback
  | enumeratePhysicalDevices
  | getMemoryProperties
  | getQueueFamilyProperties
  | createDevice (queueFamilyIndex : Nat)
  | createCommandPool (queueFamilyIndex : Nat)
  | createDescriptorPool
  | getQueue (queueFamilyIndex queueIndex : Nat)
  | allocateCommandBuffers (count : Nat)
  | createShaderModule (stage : Nat)
  | createImage (width height format usage : Nat)
  | allocateMemory (memoryTypeIndex size : Nat)
  | bindImageMemory
  | createImageView
  | createDescriptorSetLayout
  | createPipelineLayout
  | createRenderPass
  | createGraphicsPipeline
  | createFramebuffer (width height : Nat)
  | createBuffer (size usage : Nat)
  | bindBufferMemory
  | mapMemory (size : Nat)
  | memcpyToMapped (size : Nat)
  | unmapMemory
  | beginCommandBuffer
  | copyBuffer (size : Nat)
  | endCommandBuffer
  | queueSubmit
  | queueWaitIdle
  | beginRenderPass
  | bindPipeline
  | pushConstants (size : Nat)
  | allocateDescriptorSets (count : Nat)
  | updateDescriptorSets
  | bindDescriptorSets
  | draw (vertexCount instanceCount firstVertex firstInstance : Nat)
  | endRenderPass
  | pipelineBarrier
  | copyImageToBuffer (width height : Nat)
  | writeFile (name : String) (size : Nat)

/-! Boolean discriminators used to state trace properties. -/

def Event.isCreateInstance : Event → Bool
  | Event.createInstance _ _ => true
  | _ => false

def Event.isEnumeratePhysicalDevices : Event → Bool
  | Event.enumeratePhysicalDevices => true
  | _ => false

def Event.isCreateCommandPool : Event → Bool
  | Event.createCommandPool _ => true
  | _ => false

def Event.isAllocateCommandBuffers : Event → Bool
  | Event.allocateCommandBuffers _ => true
  | _ => false

def Event.isCreateGraphicsPipeline : Event → Bool
  | Event.createGraphicsPipeline => true
  | _ => false

def Event.isQueueSubmit : Event → Bool
  | Event.queueSubmit => true
  | _ => false

def Event.isQueueWaitIdle : Event → Bool
  | Event.queueWaitIdle => true
  | _ => false

def Event.isDraw : Event → Bool
  | Event.draw _ _ _ _ => true
  | _ => false

def Event.isBeginRenderPass : Event → Bool
  | Event.beginRenderPass => true
  | _ => false

def Event.isEndRenderPass : Event → Bool
  | Event.endRenderPass => true
  | _ => false

def Event.isCopyImageToBuffer : Event → Bool
  | Event.copyImageToBuffer _ _ => true
  | _ => false

def Event.isMapMemoryOf (n : Nat) : Event → Bool
  | Event.mapMemory m => m == n
  | _ => false

def Event.isWriteFile : Event → Bool
  | Event.writeFile _ _ => true
  | _ => false

/-- `seq_in_order ps tr` holds when `tr` has a subsequence whose elements
satisfy the discriminators `ps` in order (a left-to-right scan). -/
def seq_in_order : List (Event → Bool) → List Event → Bool
  | [], _ => true
  | _ :: _, [] => false
  | p :: ps, e :: es =>
    if p e then seq_in_order ps es else seq_in_order (p :: ps) es

/-- Every `queueSubmit` in the trace is immediately followed by
`queueWaitIdle` (the `wait = true` path of `vkx::submit`, lines 136-143). -/
def submits_waited : List Event → Bool
  | [] => true
  | Event.queueSubmit :: rest =>
    match rest with
    | Event.queueWaitIdle :: _ => submits_waited rest
    | _ => false
  | _ :: rest => submits_waited rest

/-- No `queueSubmit` occurs before the first `createGraphicsPipeline`. -/
def no_submit_before_pipeline : List Event → Bool
  | [] => true
  | e :: rest =>
    if Event.isCreateGraphicsPipeline e then true
    else if Event.isQueueSubmit e then false
    else no_submit_before_pipeline rest

/-! ### The event traces of `main`'s success path -/

/-- Events of `main` from instance creation up to the framebuffer
(lines 273-744), with the chosen queue-family index `fam`, the memory-type
indices `i0`/`i1` and driver-reported sizes `s0`/`s1` of the color and depth
attachment allocations. -/
def pre_buffer_trace (fam i0 i1 s0 s1 : Nat) : List Event :=
  [Event.createInstance 1 1,
   Event.createDebugReportCallback,
   Event.enumeratePhysicalDevices,
   Event.getMemoryProperties,
   Event.getQueueFamilyProperties,
   Event.createDevice fam,
   Event.createCommandPool fam,
   Event.createDescriptorPool,
   Event.getQueue fam 0,
   Event.allocateCommandBuffers 1,
   Event.createShaderModule eStageVertex,
   Event.createShaderModule eStageFragment,
   Event.createImage 512 512 eR32G32B32A32Sfloat
     (eImageColorAttachment ||| eImageTransferSrc),
   Event.allocateMemory i0 s0,
   Event.bindImageMemory,
   Event.createImageView,
   Event.createImage 512 512 eD32Sfloat eImageDepthStencilAttachment,
   Event.allocateMemory i1 s1,
   Event.bindImageMemory,
   Event.createImageView,
   Event.createDescriptorSetLayout,
   Event.createPipelineLayout,
   Event.createRenderPass,
   Event.createGraphicsPipeline,
   Event.createFramebuffer 512 512]

/-- Events of one `vkx::create_buffer` call (lines 166-207): staging buffer,
host-visible allocation, host copy, device-local buffer and allocation, and a
waited copy submission.  `i_s`/`i_d` are the chosen memory-type indices,
`s_s`/`s_d` the driver-reported allocation sizes, `size` the data size and
`flags` the requested usage flags. -/
def create_buffer_trace (i_s i_d s_s s_d size flags : Nat) : List Event :=
  [Event.createBuffer size eBufferTransferSrc,
   Event.allocateMemory i_s s_s,
   Event.bindBufferMemory,
   Event.mapMemory size,
   Event.memcpyToMapped size,
   Event.unmapMemory,
   Event.createBuffer size (flags ||| eBufferTransferDst),
   Event.allocateMemory i_d s_d,
   Event.bindBufferMemory,
   Event.beginCommandBuffer,
   Event.copyBuffer size,
   Event.endCommandBuffer,
   Event.queueSubmit,
   Event.queueWaitIdle]

/-- Events of `main` after the positions buffer (lines 754-887): record and
submit the render pass, create the readback buffer (`i4`/`s4` its memory-type
index and allocation size), transition the color attachment, copy it into the
buffer, map it and write `image.bin`. -/
def post_buffer_trace (i4 s4 : Nat) : List Event :=
  [Event.beginCommandBuffer,
   Event.beginRenderPass,
   Event.bindPipeline,
   Event.pushConstants (16 * sizeof_vec3),
   Event.allocateDescriptorSets 1,
   Event.updateDescriptorSets,
   Event.bindDescriptorSets,
   Event.draw 3 10000 0 0,
   Event.endRenderPass,
   Event.endCommandBuffer,
   Event.queueSubmit,
   Event.queueWaitIdle,
   Event.createBuffer (512 * 512 * sizeof_vec4) eBufferTransferDst,
   Event.allocateMemory i4 s4,
   Event.bindBufferMemory,
   Event.beginCommandBuffer,
   Event.pipelineBarrier,
   Event.endCommandBuffer,
   Event.queueSubmit,
   Event.queueWaitIdle,
   Event.beginCommandBuffer,
   Event.copyImageToBuffer 512 512,
   Event.endCommandBuffer,
   Event.queueSubmit,
   Event.queueWaitIdle,
   Event.mapMemory (512 * 512 * sizeof_vec4),
   Event.writeFile "image.bin" (512 * 512 * sizeof_vec4)]

/-- The complete success trace of `main`. -/
def ok_trace (fam i0 i1 i2 i3 i4 s0 s1 s2 s3 s4 : Nat) : List Event :=
  pre_buffer_trace fam i0 i1 s0 s1 ++
    create_buffer_trace i2 i3 s2 s3 (3 * sizeof_vec2) eStorageBuffer ++
    post_buffer_trace i4 s4

/-! ### Execution model of `main` -/

/-- Result of one `shaderc` compilation: `some msg` when it fails (the code
throws `GetErrorMessage()`, line 256), `none` when it succeeds. -/
def check_compile (res : Option String) : Except String Unit :=
  match res with
  | some msg => .error msg
  | none => .ok ()

/-- `vkx::create_buffer` (lines 166-207): the two fallible
`vkx::allocate` calls in source order, then the events of the call.
The staging allocation requests `eHostCoherent | eHostVisible` (lines
182-184), the device allocation `eDeviceLocal` (lines 196-198). -/
def create_buffer_events (mc : PhysicalDeviceMemoryProperties)
    (reqs_staging reqs_device : MemoryRequirements) (flags size : Nat) :
    Except String (List Event) :=
  Except.bind (allocate mc reqs_staging (eHostCoherent ||| eHostVisible))
    (fun i_s =>
  Except.bind (allocate mc reqs_device eDeviceLocal) (fun i_d =>
  Except.ok (create_buffer_trace i_s i_d reqs_staging.size reqs_device.size
    size flags)))

/-- The body of `main`'s `try` block, run against a chosen physical device
`dev`, the driver's memory requirements `memReqs k` for the `k`-th
`vkx::allocate` call (0: color attachment, 1: depth attachment, 2: staging
buffer, 3: device-local positions buffer, 4: readback buffer), and the two
shader-compilation outcomes.  The fallible operations appear in source
order; on success the value is the full event trace.  Handle destructors
(resource teardown at scope exit) are not traced. -/
def run_with (dev : PhysicalDevice) (memReqs : Nat → MemoryRequirements)
    (vertexCompile fragmentCompile : Option String) :
    Except String (List Event) :=
  Except.bind (find_graphics_transfer_family dev.queueFamilyProperties)
    (fun fam =>
  Except.bind (check_compile vertexCompile) (fun _ =>
  Except.bind (check_compile fragmentCompile) (fun _ =>
  Except.bind (allocate dev.memoryProperties (memReqs 0) eDeviceLocal)
    (fun i0 =>
  Except.bind (allocate dev.memoryProperties (memReqs 1) eDeviceLocal)
    (fun i1 =>
  Except.bind (create_buffer_events dev.memoryProperties (memReqs 2)
      (memReqs 3) eStorageBuffer (3 * sizeof_vec2)) (fun buf_tr =>
  Except.bind (allocate dev.memoryProperties (memReqs 4) eHostVisible)
    (fun i4 =>
  Except.ok (pre_buffer_trace fam i0 i1 (memReqs 0).size (memReqs 1).size ++
    buf_tr ++ post_buffer_trace i4 (memReqs 4).size))))))))

/-- The external world of one run: the enumerated physical devices, the
driver's per-allocation memory requirements, and the shader compiler's
outcomes. -/
structure Env where
  devices : List PhysicalDevice
  memReqs : Nat → MemoryRequirements
  vertexCompile : Option String
  fragmentCompile : Option String

/-- `devices.front()` (line 346): the first enumerated physical device.
(`front()` on an empty vector is undefined behaviour in C++; `headD default`
stands in for that arbitrary value.) -/
def picked_device (env : Env) : PhysicalDevice :=
  env.devices.headD default

/-- The body of `main`'s `try` block. -/
def run (env : Env) : Except String (List Event) :=
  run_with (picked_device env) env.memReqs env.vertexCompile
    env.fragmentCompile

/-- `main` (lines 273-897): the `try` body, with the `catch` printing
`e.what()` and returning `-1` (lines 890-894), and `return 0` otherwise.
The result is the exit code paired with the lines printed by the catch
handler. -/
def main_model (env : Env) : Int × List String :=
  match run env with
  | .error msg => (-1, [msg])
  | .ok _ => (0, [])

/-! ### Helper lemmas about the scans -/

theorem find_first_index_append_none (p : Nat → Bool) (l1 l2 : List Nat)
    (h : find_first_index p l1 = none) :
    find_first_index p (l1 ++ l2) = find_first_index p l2 := by
  induction l1 with
  | nil => simp
  | cons a l ih =>
    by_cases ha : p a
    · simp [find_first_index, ha] at h
    · simp only [find_first_index, ha, if_false, List.cons_append] at h ⊢
      exact ih h

theorem find_first_index_append_some (p : Nat → Bool) (l1 l2 : List Nat)
    (i : Nat) (h : find_first_index p l1 = some i) :
    find_first_index p (l1 ++ l2) = some i := by
  induction l1 with
  | nil => simp [find_first_index] at h
  | cons a l ih =>
    by_cases ha : p a
    · simp only [find_first_index, ha, if_true] at h ⊢
      exact h
    · simp only [find_first_index, ha, if_false, List.cons_append] at h ⊢
      exact ih h

theorem find_first_index_range_eq_none (p : Nat → Bool) (n : Nat) :
    find_first_index p (List.range n) = none ↔ ∀ k, k < n → p k = false := by
  induction n with
  | zero => simp [find_first_index]
  | succ n ih =>
    rw [List.range_succ]
    constructor
    · intro h
      cases hn : find_first_index p (List.range n) with
      | some j =>
        rw [find_first_index_append_some _ _ _ _ hn] at h
        exact absurd h (by simp)
      | none =>
        rw [find_first_index_append_none _ _ _ hn] at h
        have hpn : p n = false := by
          by_cases hp : p n
          · simp [find_first_index, hp] at h
          · simpa using hp
        intro k hk
        rcases Nat.lt_succ_iff_lt_or_eq.mp hk with h' | rfl
        · exact ih.mp hn k h'
        · exact hpn
    · intro h
      have hn : find_first_index p (List.range n) = none :=
        ih.mpr fun k hk => h k (Nat.lt_succ_of_lt hk)
      rw [find_first_index_append_none _ _ _ hn]
      simp [find_first_index, h n (Nat.lt_succ_self n)]

theorem find_first_index_range_eq_some (p : Nat → Bool) (n j : Nat)
    (h : find_first_index p (List.range n) = some j) :
    p j = true ∧ j < n ∧ ∀ k, k < j → p k = false := by
  induction n with
  | zero => simp [find_first_index] at h
  | succ n ih =>
    rw [List.range_succ] at h
    cases hn : find_first_index p (List.range n) with
    | some j' =>
      rw [find_first_index_append_some _ _ _ _ hn] at h
      injection h with h
      subst h
      obtain ⟨h1, h2, h3⟩ := ih hn
      exact ⟨h1, Nat.lt_succ_of_lt h2, h3⟩
    | none =>
      rw [find_first_index_append_none _ _ _ hn] at h
      by_cases hp : p n
      · simp only [find_first_index, hp, if_true] at h
        injection h with h
        subst h
        exact ⟨hp, Nat.lt_succ_self _,
          fun k hk => (find_first_index_range_eq_none p n).mp hn k
            (Nat.lt_of_lt_of_le hk (Nat.le_refl _))⟩
      · simp [find_first_index, hp] at h

theorem find_if_idx_eq_none (p : Nat → Bool) (l : List Nat) :
    find_if_idx p l = none ↔ ∀ f ∈ l, p f = false := by
  induction l with
  | nil => simp [find_if_idx]
  | cons a l ih =>
    by_cases ha : p a
    · simp [find_if_idx, ha]
    · rw [Bool.not_eq_true] at ha
      simp [find_if_idx, ha, ih]

theorem find_if_idx_eq_some (p : Nat → Bool) (l : List Nat) (i : Nat)
    (h : find_if_idx p l = some i) :
    ∃ f, l[i]? = some f ∧ p f = true ∧
      ∀ j f', j < i → l[j]? = some f' → p f' = false := by
  induction l generalizing i with
  | nil => simp [find_if_idx] at h
  | cons a l ih =>
    by_cases ha : p a
    · simp only [find_if_idx, ha, if_true] at h
      injection h with h
      subst h
      exact ⟨a, by simp, ha, fun j f' hj _ => absurd hj (Nat.not_lt_zero j)⟩
    · simp only [find_if_idx, ha, if_false] at h
      obtain ⟨i', hi', rfl⟩ := Option.map_eq_some'.mp h
      obtain ⟨f, hf, hpf, hmin⟩ := ih _ hi'
      refine ⟨f, by simpa using hf, hpf, ?_⟩
      intro j f' hj hjf'
      cases j with
      | zero =>
        simp only [List.getElem?_cons_zero, Option.some.injEq] at hjf'
        subst hjf'
        rw [Bool.not_eq_true] at ha
        exact ha
      | succ j' =>
        exact hmin j' f' (by omega) (by simpa using hjf')

/-! ### Bitmask helper lemmas -/

/-- `p &&& m = m` says exactly that every bit of `m` is a bit of `p`:
the code's test that `propertyFlags` contains all requested flags. -/
theorem and_eq_self_iff_superset (p m : Nat) :
    p &&& m = m ↔ ∀ b, m.testBit b = true → p.testBit b = true := by
  constructor
  · intro h b hb
    have hbit := congrArg (Nat.testBit · b) h
    simp only [Nat.testBit_land] at hbit
    rw [hb] at hbit
    simpa using hbit
  · intro h
    apply Nat.eq_of_testBit_eq
    intro b
    rw [Nat.testBit_land]
    cases hm : m.testBit b with
    | true => simp [h b hm]
    | false => simp

/-- The queue-family predicate accepts exactly the families whose flags have
the graphics bit (bit 0) or the transfer bit (bit 2). -/
theorem queue_family_pred_eq (f : Nat) :
    queue_family_pred f = (f.testBit 0 || f.testBit 2) := by
  have h14 : (VK_QUEUE_GRAPHICS_BIT ||| VK_QUEUE_TRANSFER_BIT : Nat) = 5 := by
    decide
  unfold queue_family_pred
  rw [h14, Bool.eq_iff_iff]
  simp only [bne_iff_ne, ne_eq, Bool.or_eq_true]
  constructor
  · intro h
    obtain ⟨i, hi, -⟩ := Nat.exists_most_significant_bit h
    rw [Nat.testBit_land] at hi
    obtain ⟨hf, h5⟩ := (Bool.and_eq_true _ _).mp hi
    have hlt : i < 3 := by
      by_contra hge
      have hp : (5 : Nat) < 2 ^ i := by
        have h8 : (2 : Nat) ^ 3 ≤ 2 ^ i := Nat.pow_le_pow_right (by norm_num) (by omega)
        omega
      rw [Nat.testBit_eq_false_of_lt hp] at h5
      exact absurd h5 (by simp)
    interval_cases i
    · exact Or.inl hf
    · exact absurd h5 (by decide)
    · exact Or.inr hf
  · rintro (hf | hf) h0
    · have hbit := congrArg (Nat.testBit · 0) h0
      simp only [Nat.testBit_land] at hbit
      rw [hf] at hbit
      exact absurd hbit (by decide)
    · have hbit := congrArg (Nat.testBit · 2) h0
      simp only [Nat.testBit_land] at hbit
      rw [hf] at hbit
      exact absurd hbit (by decide)

/-! ### Shape of successful runs -/

theorem create_buffer_events_ok (mc : PhysicalDeviceMemoryProperties)
    (rs rd : MemoryRequirements) (flags size : Nat) (tr : List Event)
    (h : create_buffer_events mc rs rd flags size = .ok tr) :
    ∃ i_s i_d,
      allocate mc rs (eHostCoherent ||| eHostVisible) = .ok i_s ∧
      allocate mc rd eDeviceLocal = .ok i_d ∧
      tr = create_buffer_trace i_s i_d rs.size rd.size size flags := by
  unfold create_buffer_events at h
  cases hs : allocate mc rs (eHostCoherent ||| eHostVisible) with
  | error m => rw [hs] at h; simp [Except.bind] at h
  | ok i_s =>
    rw [hs] at h
    cases hd : allocate mc rd eDeviceLocal with
    | error m => rw [hd] at h; simp [Except.bind] at h
    | ok i_d =>
      rw [hd] at h
      simp only [Except.bind, Except.ok.injEq] at h
      exact ⟨i_s, i_d, rfl, rfl, h.symm⟩

theorem run_with_ok (dev : PhysicalDevice) (memReqs : Nat → MemoryRequirements)
    (vc fc : Option String) (tr : List Event)
    (h : run_with dev memReqs vc fc = .ok tr) :
    ∃ fam i0 i1 i2 i3 i4,
      find_graphics_transfer_family dev.queueFamilyProperties = .ok fam ∧
      vc = none ∧ fc = none ∧
      allocate dev.memoryProperties (memReqs 0) eDeviceLocal = .ok i0 ∧
      allocate dev.memoryProperties (memReqs 1) eDeviceLocal = .ok i1 ∧
      allocate dev.memoryProperties (memReqs 2)
        (eHostCoherent ||| eHostVisible) = .ok i2 ∧
      allocate dev.memoryProperties (memReqs 3) eDeviceLocal = .ok i3 ∧
      allocate dev.memoryProperties (memReqs 4) eHostVisible = .ok i4 ∧
      tr = ok_trace fam i0 i1 i2 i3 i4 (memReqs 0).size (memReqs 1).size
        (memReqs 2).size (memReqs 3).size (memReqs 4).size := by
  unfold run_with at h
  cases hfam : find_graphics_transfer_family dev.queueFamilyProperties with
  | error m => rw [hfam] at h; simp [Except.bind] at h
  | ok fam =>
  rw [hfam] at h
  cases vc with
  | some m => simp [check_compile, Except.bind] at h
  | none =>
  cases fc with
  | some m => simp [check_compile, Except.bind] at h
  | none =>
  simp only [check_compile, Except.bind] at h
  cases h0 : allocate dev.memoryProperties (memReqs 0) eDeviceLocal with
  | error m => rw [h0] at h; simp at h
  | ok i0 =>
  rw [h0] at h
  cases h1 : allocate dev.memoryProperties (memReqs 1) eDeviceLocal with
  | error m => rw [h1] at h; simp at h
  | ok i1 =>
  rw [h1] at h
  cases hb : create_buffer_events dev.memoryProperties (memReqs 2) (memReqs 3)
      eStorageBuffer (3 * sizeof_vec2) with
  | error m => rw [hb] at h; simp at h
  | ok buf_tr =>
  rw [hb] at h
  cases h4 : allocate dev.memoryProperties (memReqs 4) eHostVisible with
  | error m => rw [h4] at h; simp at h
  | ok i4 =>
  rw [h4] at h
  simp only [Except.ok.injEq] at h
  obtain ⟨i2, i3, h2, h3, hbtr⟩ :=
    create_buffer_events_ok _ _ _ _ _ _ hb
  refine ⟨fam, i0, i1, i2, i3, i4, rfl, rfl, rfl, rfl, rfl, h2, h3, rfl, ?_⟩
  rw [← h, hbtr]
  rfl

/-! ### Concrete example environments -/

/-- A well-behaved device: one memory type with flags
`eDeviceLocal | eHostVisible | eHostCoherent`, one queue family advertising
graphics, compute, transfer and sparse binding. -/
def dev0 : PhysicalDevice :=
  { memoryProperties := { memoryTypeCount := 1, memoryTypes := fun _ => 7 }
    queueFamilyProperties := [15] }

/-- A well-behaved environment: `dev0`, every allocation reporting size 1024
and memory-type mask 1, both shaders compiling. -/
def env0 : Env :=
  { devices := [dev0]
    memReqs := fun _ => { size := 1024, memoryTypeBits := 1 }
    vertexCompile := none
    fragmentCompile := none }

/-- The trace of the successful run on `env0`. -/
def trace0 : List Event := ok_trace 0 0 0 0 0 0 1024 1024 1024 1024 1024

/-- An environment whose device has no queue families at all, so the
queue-family search throws. -/
def env_no_queue : Env :=
  { devices :=
      [{ memoryProperties := { memoryTypeCount := 0, memoryTypes := fun _ => 0 }
         queueFamilyProperties := [] }]
    memReqs := fun _ => { size := 0, memoryTypeBits := 0 }
    vertexCompile := none
    fragmentCompile := none }

theorem run_env0 : run env0 = .ok trace0 := rfl

theorem run_env_no_queue :
    run env_no_queue =
      .error "could not find queue that supports both graphics and transfers" :=
  rfl

/-! ### Specification lemmas for `find_memory_index` -/

theorem mem_type_matches_iff (mc : PhysicalDeviceMemoryProperties)
    (rt mf k : Nat) :
    mem_type_matches mc rt mf k = true ↔
      rt.testBit k = true ∧ mc.memoryTypes k &&& mf = mf := by
  simp [mem_type_matches]

theorem mem_type_matches_eq_false_iff (mc : PhysicalDeviceMemoryProperties)
    (rt mf k : Nat) :
    mem_type_matches mc rt mf k = false ↔
      ¬(rt.testBit k = true ∧ mc.memoryTypes k &&& mf = mf) := by
  rw [← mem_type_matches_iff mc rt mf k, Bool.not_eq_true]

theorem find_memory_index_ok_spec (mc : PhysicalDeviceMemoryProperties)
    (rt mf j : Nat) (h : find_memory_index mc rt mf = .ok j) :
    j < mc.memoryTypeCount ∧ rt.testBit j = true ∧
      mc.memoryTypes j &&& mf = mf ∧
      ∀ k, k < j → mem_type_matches mc rt mf k = false := by
  unfold find_memory_index at h
  cases hf : find_first_index (mem_type_matches mc rt mf)
      (List.range mc.memoryTypeCount) with
  | none => rw [hf] at h; simp at h
  | some j' =>
    rw [hf] at h
    simp only [Except.ok.injEq] at h
    subst h
    obtain ⟨hpj, hlt, hmin⟩ := find_first_index_range_eq_some _ _ _ hf
    obtain ⟨hb, hm⟩ := (mem_type_matches_iff _ _ _ _).mp hpj
    exact ⟨hlt, hb, hm, hmin⟩

theorem find_memory_index_error_spec (mc : PhysicalDeviceMemoryProperties)
    (rt mf : Nat) :
    find_memory_index mc rt mf =
        .error "could not find an appropriate memory index" ↔
      ∀ k, k < mc.memoryTypeCount → mem_type_matches mc rt mf k = false := by
  constructor
  · intro h
    cases hf : find_first_index (mem_type_matches mc rt mf)
        (List.range mc.memoryTypeCount) with
    | some j => unfold find_memory_index at h; rw [hf] at h; simp at h
    | none => exact (find_first_index_range_eq_none _ _).mp hf
  · intro hall
    unfold find_memory_index
    rw [(find_first_index_range_eq_none _ _).mpr hall]

/-! ### Claim theorems -/

/-- C1: for every memory-properties table, 16-bit resource-type bitmask and
requested flag set, if some index `i < memoryTypeCount` has its bitmask bit
set and its `propertyFlags` contain all requested flags, then
`find_memory_index` returns the least such index: the returned `j` is a match,
is `≤ i`, and no index below `j` matches (the first match of the linear scan
from 0). -/
theorem find_memory_index_first_match (mc : PhysicalDeviceMemoryProperties)
    (rt mf i : Nat) (hrt : rt < 2 ^ 16) (hi : i < mc.memoryTypeCount)
    (hbit : rt.testBit i = true) (hprops : mc.memoryTypes i &&& mf = mf) :
    ∃ j, find_memory_index mc rt mf = .ok j ∧ j ≤ i ∧
      j < mc.memoryTypeCount ∧ rt.testBit j = true ∧
      mc.memoryTypes j &&& mf = mf ∧
      ∀ k, k < j → ¬(rt.testBit k = true ∧ mc.memoryTypes k &&& mf = mf) := by
  have hpi : mem_type_matches mc rt mf i = true :=
    (mem_type_matches_iff _ _ _ _).mpr ⟨hbit, hprops⟩
  cases hfind : find_first_index (mem_type_matches mc rt mf)
      (List.range mc.memoryTypeCount) with
  | none =>
    have hfalse := (find_first_index_range_eq_none _ _).mp hfind i hi
    rw [hpi] at hfalse
    exact absurd hfalse (by simp)
  | some j =>
    obtain ⟨hpj, hjlt, hmin⟩ := find_first_index_range_eq_some _ _ _ hfind
    obtain ⟨hjb, hjm⟩ := (mem_type_matches_iff _ _ _ _).mp hpj
    have hjle : j ≤ i := by
      by_contra hji
      have hfi := hmin i (by omega)
      rw [hpi] at hfi
      exact absurd hfi (by simp)
    refine ⟨j, ?_, hjle, hjlt, hjb, hjm, ?_⟩
    · unfold find_memory_index
      rw [hfind]
    · intro k hk hkm
      have hfk := hmin k hk
      rw [(mem_type_matches_iff _ _ _ _).mpr hkm] at hfk
      exact absurd hfk (by simp)

theorem find_memory_index_first_match_witness :
    (1 : Nat) < 2 ^ 16 ∧ 0 < dev0.memoryProperties.memoryTypeCount ∧
    Nat.testBit 1 0 = true ∧ dev0.memoryProperties.memoryTypes 0 &&& 1 = 1 ∧
    ∃ j, find_memory_index dev0.memoryProperties 1 1 = .ok j ∧ j ≤ 0 ∧
      j < dev0.memoryProperties.memoryTypeCount ∧ Nat.testBit 1 j = true ∧
      dev0.memoryProperties.memoryTypes j &&& 1 = 1 ∧
      ∀ k, k < j → ¬(Nat.testBit 1 k = true ∧
        dev0.memoryProperties.memoryTypes k &&& 1 = 1) :=
  ⟨by decide, by decide, by decide, by decide,
   find_memory_index_first_match dev0.memoryProperties 1 1 0 (by decide)
     (by decide) (by decide) (by decide)⟩

/-- C2: `find_memory_index` throws `runtime_error`
`"could not find an appropriate memory index"` exactly when no index below
`memoryTypeCount` both has its bitmask bit set and has `propertyFlags`
containing all requested flags, and every index it returns is a matching
in-range index. -/
theorem find_memory_index_error_iff (mc : PhysicalDeviceMemoryProperties)
    (rt mf : Nat) :
    (find_memory_index mc rt mf =
        .error "could not find an appropriate memory index" ↔
      ∀ i, i < mc.memoryTypeCount →
        ¬(rt.testBit i = true ∧ mc.memoryTypes i &&& mf = mf)) ∧
    ∀ j, find_memory_index mc rt mf = .ok j →
      j < mc.memoryTypeCount ∧ rt.testBit j = true ∧
        mc.memoryTypes j &&& mf = mf := by
  refine ⟨?_, ?_⟩
  · rw [find_memory_index_error_spec mc rt mf]
    constructor
    · intro h i hi
      exact (mem_type_matches_eq_false_iff mc rt mf i).mp (h i hi)
    · intro h k hk
      exact (mem_type_matches_eq_false_iff mc rt mf k).mpr (h k hk)
  · intro j hj
    obtain ⟨h1, h2, h3, -⟩ := find_memory_index_ok_spec mc rt mf j hj
    exact ⟨h1, h2, h3⟩

theorem find_memory_index_error_iff_witness :
    0 < dev0.memoryProperties.memoryTypeCount ∧ Nat.testBit 1 0 = true ∧
    dev0.memoryProperties.memoryTypes 0 &&& 1 = 1 :=
  (find_memory_index_error_iff dev0.memoryProperties 1 1).2 0 rfl

/-- C4: the linear scan of `find_memory_index` only evaluates in-range bits of
its 16-bit bitset when `memoryTypeCount ≤ 16`; a table with
`memoryTypeCount > 16` makes the scan index the bitset out of range (index 16
is evaluated); and at the `allocate` call site the 32-bit `memoryTypeBits`
mask is truncated to its low 16 bits. -/
theorem find_memory_index_scan_bounds :
    (∀ mc rt mf, mc.memoryTypeCount ≤ 16 →
      ∀ i ∈ scanned_indices mc rt mf, i < 16) ∧
    (∃ mc rt mf, 16 < mc.memoryTypeCount ∧ 16 ∈ scanned_indices mc rt mf) ∧
    (∀ mc reqs mem_props, allocate mc reqs mem_props =
      find_memory_index mc (reqs.memoryTypeBits % 2 ^ 16) mem_props) := by
  refine ⟨?_, ?_, fun _ _ _ => rfl⟩
  · intro mc rt mf hle i hi
    cases hfind : find_memory_index mc rt mf with
    | ok j =>
      simp only [scanned_indices, hfind, List.mem_range] at hi
      obtain ⟨hjlt, -, -, -⟩ := find_memory_index_ok_spec mc rt mf j hfind
      omega
    | error m =>
      simp only [scanned_indices, hfind, List.mem_range] at hi
      omega
  · exact ⟨⟨17, fun _ => 0⟩, 0, 1, by decide, by decide⟩

theorem find_memory_index_scan_bounds_witness :
    dev0.memoryProperties.memoryTypeCount ≤ 16 ∧ 0 < 16 :=
  ⟨by decide,
   find_memory_index_scan_bounds.1 dev0.memoryProperties 1 1 (by decide) 0
     (by decide)⟩

/-- C10: the debug-report callback `log` returns `VK_TRUE` and routes its
message to `stderr` exactly when `flags` equals the single error bit
`VK_DEBUG_REPORT_ERROR_BIT_EXT`; any other value, including the error bit
combined with further bits, goes to `stdout` with return `VK_FALSE`. -/
theorem log_error_routing (flags : Nat) :
    ((log flags).toStderr = true ∧ (log flags).returnValue = true ↔
      flags = VK_DEBUG_REPORT_ERROR_BIT_EXT) ∧
    (flags ≠ VK_DEBUG_REPORT_ERROR_BIT_EXT →
      (log flags).toStderr = false ∧ (log flags).returnValue = false) := by
  constructor
  · simp [log]
  · intro h
    simp [log, h]

theorem log_error_routing_witness :
    ((10 : Nat) ≠ VK_DEBUG_REPORT_ERROR_BIT_EXT) ∧
    (log 10).toStderr = false ∧ (log 10).returnValue = false :=
  ⟨by decide, (log_error_routing 10).2 (by decide)⟩

/-- C3: the queue-family search accepts the first family whose flags include
the graphics flag or the transfer flag (bit 0 or bit 2; a transfer-only
family is accepted), throws
`"could not find queue that supports both graphics and transfers"` exactly
when no family advertises either flag, and on success the found index is the
one used for the device, the command pool and the queue. -/
theorem queue_family_selection (families : List Nat) (env : Env)
    (tr : List Event) :
    queue_family_pred VK_QUEUE_TRANSFER_BIT = true ∧
    (∀ f, queue_family_pred f = (f.testBit 0 || f.testBit 2)) ∧
    (find_graphics_transfer_family families =
        .error "could not find queue that supports both graphics and transfers"
      ↔ ∀ f ∈ families, queue_family_pred f = false) ∧
    (∀ i, find_graphics_transfer_family families = .ok i →
      ∃ f, families[i]? = some f ∧ queue_family_pred f = true ∧
        ∀ j f', j < i → families[j]? = some f' →
          queue_family_pred f' = false) ∧
    (run env = .ok tr →
      ∃ fam, find_graphics_transfer_family
          (picked_device env).queueFamilyProperties = .ok fam ∧
        Event.createDevice fam ∈ tr ∧ Event.createCommandPool fam ∈ tr ∧
        Event.getQueue fam 0 ∈ tr) := by
  refine ⟨by decide, queue_family_pred_eq, ?_, ?_, ?_⟩
  · constructor
    · intro h
      cases hf : find_if_idx queue_family_pred families with
      | some i =>
        unfold find_graphics_transfer_family at h
        rw [hf] at h
        simp at h
      | none => exact (find_if_idx_eq_none _ _).mp hf
    · intro hall
      unfold find_graphics_transfer_family
      rw [(find_if_idx_eq_none _ _).mpr hall]
  · intro i hi
    cases hf : find_if_idx queue_family_pred families with
    | none =>
      unfold find_graphics_transfer_family at hi
      rw [hf] at hi
      simp at hi
    | some i' =>
      unfold find_graphics_transfer_family at hi
      rw [hf] at hi
      simp only [Except.ok.injEq] at hi
      subst hi
      exact find_if_idx_eq_some _ _ _ hf
  · intro h
    unfold run at h
    obtain ⟨fam, i0, i1, i2, i3, i4, hfam, -, -, -, -, -, -, -, htr⟩ :=
      run_with_ok _ _ _ _ _ h
    subst htr
    refine ⟨fam, hfam, ?_, ?_, ?_⟩ <;>
      simp [ok_trace, pre_buffer_trace, create_buffer_trace,
        post_buffer_trace]

theorem queue_family_selection_witness :
    run env0 = .ok trace0 ∧
    ∃ fam, find_graphics_transfer_family
        (picked_device env0).queueFamilyProperties = .ok fam ∧
      Event.createDevice fam ∈ trace0 ∧
      Event.createCommandPool fam ∈ trace0 ∧
      Event.getQueue fam 0 ∈ trace0 :=
  ⟨rfl, (queue_family_selection [] env0 trace0).2.2.2.2 rfl⟩

/-- C5: if any step of the run throws, `main` catches the exception, prints
its message and returns `-1`; if no step throws, `main` returns `0` and
prints nothing.  There is no retry: the result is a single `match` on the
body's outcome. -/
theorem main_catch_behavior (env : Env) :
    (∀ msg, run env = .error msg → main_model env = (-1, [msg])) ∧
    (∀ tr, run env = .ok tr → main_model env = (0, [])) := by
  constructor
  · intro msg h
    unfold main_model
    rw [h]
  · intro tr h
    unfold main_model
    rw [h]

theorem main_catch_behavior_witness :
    main_model env_no_queue =
      (-1, ["could not find queue that supports both graphics and transfers"])
    ∧ main_model env0 = (0, []) :=
  ⟨(main_catch_behavior env_no_queue).1 _ rfl,
   (main_catch_behavior env0).2 trace0 rfl⟩

/-- C6: in every successful run, the five steps occur in order: instance
creation, physical-device enumeration, command-pool then command-buffer
allocation, graphics-pipeline creation, and submission to the queue;
moreover no submission happens before the pipeline is created. -/
theorem main_step_order (env : Env) (tr : List Event)
    (h : run env = .ok tr) :
    seq_in_order [Event.isCreateInstance, Event.isEnumeratePhysicalDevices,
      Event.isCreateCommandPool, Event.isAllocateCommandBuffers,
      Event.isCreateGraphicsPipeline, Event.isQueueSubmit] tr = true ∧
    no_submit_before_pipeline tr = true := by
  unfold run at h
  obtain ⟨fam, i0, i1, i2, i3, i4, -, -, -, -, -, -, -, -, htr⟩ :=
    run_with_ok _ _ _ _ _ h
  subst htr
  constructor <;>
    simp [ok_trace, pre_buffer_trace, create_buffer_trace, post_buffer_trace,
      seq_in_order, no_submit_before_pipeline, Event.isCreateInstance,
      Event.isEnumeratePhysicalDevices, Event.isCreateCommandPool,
      Event.isAllocateCommandBuffers, Event.isCreateGraphicsPipeline,
      Event.isQueueSubmit]

theorem main_step_order_witness :
    seq_in_order [Event.isCreateInstance, Event.isEnumeratePhysicalDevices,
      Event.isCreateCommandPool, Event.isAllocateCommandBuffers,
      Event.isCreateGraphicsPipeline, Event.isQueueSubmit] trace0 = true ∧
    no_submit_before_pipeline trace0 = true :=
  main_step_order env0 trace0 rfl

/-- C7: the program picks the first physical device returned by enumeration
(`devices.front()`), and the whole run depends on the device list only
through that first device — there is no filtering or ranking. -/
theorem first_physical_device (env : Env) (d : PhysicalDevice)
    (rest : List PhysicalDevice) (hdev : env.devices = d :: rest) :
    picked_device env = d ∧
    run env = run_with d env.memReqs env.vertexCompile env.fragmentCompile := by
  have hp : picked_device env = d := by
    unfold picked_device
    rw [hdev]
    rfl
  refine ⟨hp, ?_⟩
  unfold run
  rw [hp]

theorem first_physical_device_witness :
    picked_device env0 = dev0 ∧
    run env0 = run_with dev0 env0.memReqs env0.vertexCompile
      env0.fragmentCompile :=
  first_physical_device env0 dev0 [] rfl

/-- C8: in every successful run the trace contains exactly one draw call,
`draw(3, 10000, 0, 0)` — vertex count 3, instance count 10000, first vertex
0, first instance 0 — and it is recorded between the single
`beginRenderPass` and the single `endRenderPass`. -/
theorem single_instanced_draw (env : Env) (tr : List Event)
    (h : run env = .ok tr) :
    tr.filter Event.isDraw = [Event.draw 3 10000 0 0] ∧
    tr.filter Event.isBeginRenderPass = [Event.beginRenderPass] ∧
    tr.filter Event.isEndRenderPass = [Event.endRenderPass] ∧
    seq_in_order [Event.isBeginRenderPass, Event.isDraw,
      Event.isEndRenderPass] tr = true := by
  unfold run at h
  obtain ⟨fam, i0, i1, i2, i3, i4, -, -, -, -, -, -, -, -, htr⟩ :=
    run_with_ok _ _ _ _ _ h
  subst htr
  refine ⟨?_, ?_, ?_, ?_⟩ <;>
    simp [ok_trace, pre_buffer_trace, create_buffer_trace, post_buffer_trace,
      seq_in_order, Event.isDraw, Event.isBeginRenderPass,
      Event.isEndRenderPass]

theorem single_instanced_draw_witness :
    trace0.filter Event.isDraw = [Event.draw 3 10000 0 0] ∧
    trace0.filter Event.isBeginRenderPass = [Event.beginRenderPass] ∧
    trace0.filter Event.isEndRenderPass = [Event.endRenderPass] ∧
    seq_in_order [Event.isBeginRenderPass, Event.isDraw,
      Event.isEndRenderPass] trace0 = true :=
  single_instanced_draw env0 trace0 rfl

/-- C9: in every successful run, every queue submission is followed
immediately by a wait-idle; the rendered 512x512 `R32G32B32A32Sfloat` color
attachment is copied into a buffer of size `512 * 512 * sizeof(glm::vec4)`
whose memory type is host-visible; that buffer is mapped for exactly that
size and exactly `512 * 512 * sizeof(glm::vec4)` bytes are written to
`"image.bin"`, after the copy's submission and wait. -/
theorem readback_image_bin (env : Env) (tr : List Event)
    (h : run env = .ok tr) :
    submits_waited tr = true ∧
    Event.createImage 512 512 eR32G32B32A32Sfloat
      (eImageColorAttachment ||| eImageTransferSrc) ∈ tr ∧
    Event.createBuffer (512 * 512 * sizeof_vec4) eBufferTransferDst ∈ tr ∧
    (∃ i4, Event.allocateMemory i4 (env.memReqs 4).size ∈ tr ∧
      (picked_device env).memoryProperties.memoryTypes i4 &&& eHostVisible =
        eHostVisible) ∧
    tr.filter Event.isWriteFile =
      [Event.writeFile "image.bin" (512 * 512 * sizeof_vec4)] ∧
    tr.filter (Event.isMapMemoryOf (512 * 512 * sizeof_vec4)) =
      [Event.mapMemory (512 * 512 * sizeof_vec4)] ∧
    seq_in_order [Event.isCopyImageToBuffer, Event.isQueueSubmit,
      Event.isQueueWaitIdle, Event.isMapMemoryOf (512 * 512 * sizeof_vec4),
      Event.isWriteFile] tr = true := by
  unfold run at h
  obtain ⟨fam, i0, i1, i2, i3, i4, -, -, -, -, -, -, -, h4, htr⟩ :=
    run_with_ok _ _ _ _ _ h
  subst htr
  have hvis : (picked_device env).memoryProperties.memoryTypes i4 &&&
      eHostVisible = eHostVisible := by
    unfold allocate at h4
    obtain ⟨-, -, hm, -⟩ := find_memory_index_ok_spec _ _ _ _ h4
    exact hm
  refine ⟨?_, ?_, ?_, ⟨i4, ?_, hvis⟩, ?_, ?_, ?_⟩ <;>
    simp [ok_trace, pre_buffer_trace, create_buffer_trace, post_buffer_trace,
      submits_waited, seq_in_order, Event.isCopyImageToBuffer,
      Event.isQueueSubmit, Event.isQueueWaitIdle, Event.isMapMemoryOf,
      Event.isWriteFile, sizeof_vec2, sizeof_vec3, sizeof_vec4]

theorem readback_image_bin_witness :
    submits_waited trace0 = true ∧
    Event.createImage 512 512 eR32G32B32A32Sfloat
      (eImageColorAttachment ||| eImageTransferSrc) ∈ trace0 ∧
    Event.createBuffer (512 * 512 * sizeof_vec4) eBufferTransferDst ∈ trace0 ∧
    (∃ i4, Event.allocateMemory i4 (env0.memReqs 4).size ∈ trace0 ∧
      (picked_device env0).memoryProperties.memoryTypes i4 &&& eHostVisible =
        eHostVisible) ∧
    trace0.filter Event.isWriteFile =
      [Event.writeFile "image.bin" (512 * 512 * sizeof_vec4)] ∧
    trace0.filter (Event.isMapMemoryOf (512 * 512 * sizeof_vec4)) =
      [Event.mapMemory (512 * 512 * sizeof_vec4)] ∧
    seq_in_order [Event.isCopyImageToBuffer, Event.isQueueSubmit,
      Event.isQueueWaitIdle, Event.isMapMemoryOf (512 * 512 * sizeof_vec4),
      Event.isWriteFile] trace0 = true :=
  readback_image_bin env0 trace0 rfl

end Vkx
